import Mathlib

/-
  Verification development for the radiative-transfer modules of this
  repository: pyrap/rte.py (RTEquation) and pyrtlib/absmodel.py
  (H2OAbsModel, O2AbsModel, N2AbsModel).

  Embedding conventions.  The Python source is a mechanical MATLAB
  translation: profile arrays are conceptually 1-indexed, an assignment to a
  fresh list index creates the entry (MATLAB array store), parenthesised
  indexing such as x(i) denotes indexing, and the range helper arange(a, b)
  iterates a..b inclusive.  The helpers arange, constants, tk2b_mod live in a
  utils module that is not among the sources; they are modelled from the spec
  (section 3 "1-indexed-conceptually", section 6 constants provider, section
  4.5 modified Planck function).  Profiles are embedded as functions
  from level index (1-based) to rationals; machine floats are embedded as
  exact rationals.  Transcendental library functions (numpy exp, log, sqrt,
  trigonometry, the complex square root and the complex error function) are
  abstracted into an oracle structure Ops; every theorem below that does not
  depend on a particular transcendental value is proved for an arbitrary
  oracle.  Fallible Python calls are embedded with an explicit result type
  PyRes; a bare Python return of None is embedded as an Option none.
-/

/-- Exact rational complex numbers, standing for numpy complex values. -/
structure Cq where
  re : ℚ
  im : ℚ
  deriving DecidableEq

/-- Complex multiplication on Cq. -/
def cmul (z w : Cq) : Cq :=
  ⟨z.re * w.re - z.im * w.im, z.re * w.im + z.im * w.re⟩

/-- Complex subtraction on Cq. -/
def csub (z w : Cq) : Cq :=
  ⟨z.re - w.re, z.im - w.im⟩

/-- Complex division on Cq (exact rational arithmetic). -/
def cdiv (z w : Cq) : Cq :=
  ⟨(z.re * w.re + z.im * w.im) / (w.re * w.re + w.im * w.im),
   (z.im * w.re - z.re * w.im) / (w.re * w.re + w.im * w.im)⟩

/-- Oracle for the transcendental library functions used by the source
(numpy exp, log, power with non-integer exponent, sqrt, trigonometry, complex
sqrt, the complex error function dcerror) together with the external
constants provider and the modified-Planck helper.  The fields pi,
earthRadius, planckC, boltzmann, Tcosmicbkg and tk2b are
modelled from the spec: the spec names a constants provider supplying
EarthRadius, Tcosmicbkg, planck, boltzmann by name (section 6) and a
modified-Planck conversion tk2b_mod (section 4.5); the utils module holding
them is not among the sources. -/
structure Ops where
  exp : ℚ → ℚ
  log : ℚ → ℚ
  rpow : ℚ → ℚ → ℚ
  sqrt : ℚ → ℚ
  sin : ℚ → ℚ
  cos : ℚ → ℚ
  tan : ℚ → ℚ
  arcsin : ℚ → ℚ
  csqrt : Cq → Cq
  dcerror : ℚ → ℚ → Cq
  pi : ℚ
  earthRadius : ℚ
  planckC : ℚ
  boltzmann : ℚ
  Tcosmicbkg : ℚ
  tk2b : ℚ → ℚ → ℚ

/-- Oracle instance with every transcendental value zero; used to evaluate
control-flow facts that hold for any oracle on concrete inputs. -/
def opsZero : Ops :=
  ⟨fun _ => 0, fun _ => 0, fun _ _ => 0, fun _ => 0, fun _ => 0, fun _ => 0,
   fun _ => 0, fun _ => 0, fun _ => ⟨0, 0⟩, fun _ _ => ⟨0, 0⟩,
   0, 0, 0, 0, 0, fun _ _ => 0⟩

/-- Oracle instance with simple nonzero computable stand-ins, used to
evaluate concrete runs where nonzero transcendental values are needed. -/
def opsQ : Ops :=
  ⟨fun q => 1 + q, fun q => q - 1, fun q r => q * r + 1, fun q => q,
   fun q => q, fun q => 1 - q, fun q => q, fun q => q,
   fun z => z, fun a b => ⟨a, b⟩,
   3, 6370, 1, 1, 2.75, fun h t => h + t⟩

/-- Oracle instance for the ray-tracing run at 90 degrees: zero-valued
transcendentals but a nonzero pi and Earth radius. -/
def opsC4 : Ops :=
  ⟨fun _ => 0, fun _ => 0, fun _ _ => 0, fun _ => 0, fun _ => 0, fun _ => 0,
   fun _ => 0, fun _ => 0, fun _ => ⟨0, 0⟩, fun _ _ => ⟨0, 0⟩,
   3, 6370, 0, 0, 0, fun _ _ => 0⟩

/-- Python truthiness of a numpy boolean as a float (True is 1.0, False 0.0),
used where the source compares a boolean against numbers. -/
def pyBool (b : Bool) : ℚ := if b then 1 else 0

/-- numpy logical_and on two scalars (nonzero meaning true). -/
def npLogicalAnd (a b : ℚ) : Bool := decide (a ≠ 0) && decide (b ≠ 0)

/-- numpy logical_or on two scalars (nonzero meaning true). -/
def npLogicalOr (a b : ℚ) : Bool := decide (a ≠ 0) || decide (b ≠ 0)

/-- numpy any() on a scalar value: true exactly when the value is nonzero. -/
def pyAny (q : ℚ) : Bool := decide (q ≠ 0)

/-- Python str.startswith, embedded structurally over the character lists
so that concrete instances reduce. -/
def pyStartsWith (s pre : String) : Bool := pre.data.isPrefixOf s.data

/-- Python comparison of a boolean against a float, as in any() <= 0.0. -/
def pyBoolLE (b : Bool) (q : ℚ) : Bool := decide (pyBool b ≤ q)

/-- Dry refractivity at one level, from refract_xxx (rte.py lines 123-132):
pa = p - e, tc = tk - 273.16, rza correction, dryn = 77.6036 (pa/tk) rza. -/
def refr_dryn (p tk e : ℕ → ℚ) (i : ℕ) : ℚ :=
  let pa := p i - e i
  let tc := tk i - 273.16
  let tk2 := tk i * tk i
  let rza := 1 + pa * (5.79e-7 * (1 + 0.52 / tk i) - 0.00094611 * tc / tk2)
  77.6036 * (pa / tk i) * rza

/-- Wet refractivity at one level, from refract_xxx (rte.py lines 123-131). -/
def refr_wetn (p tk e : ℕ → ℚ) (i : ℕ) : ℚ :=
  let tc := tk i - 273.16
  let tk2 := tk i * tk i
  let tc2 := tc * tc
  let rzw := 1 + 1650 * (e i / (tk i * tk2)) *
      (1 - 0.01317 * tc + 0.000175 * tc2 + 1.44e-6 * (tc2 * tc))
  (64.79 * (e i / tk i) + 377600.0 * (e i / tk2)) * rzw

/-- Refractive index at one level, from refract_xxx (rte.py line 133). -/
def refr_refindx (p tk e : ℕ → ℚ) (i : ℕ) : ℚ :=
  1 + (refr_dryn p tk e i + refr_wetn p tk e i) * 1e-6

/-- RTEquation.refract_xxx (rte.py lines 93-139).  The loop builds the three
per-level profiles; after the loop the source executes
wetn = np.asarray(dryn) and then dryn = np.asarray(wetn), so the value
returned in the wetn position is the dry profile, and the dryn position,
reassigned from the already-overwritten wetn, is the dry profile as well.
The returned triple is (dryn, wetn, refindx) in source order. -/
def refract_xxx (p tk e : ℕ → ℚ) : (ℕ → ℚ) × (ℕ → ℚ) × (ℕ → ℚ) :=
  let wetn := refr_wetn p tk e
  let dryn := refr_dryn p tk e
  let refindx := refr_refindx p tk e
  let wetn2 := dryn
  let dryn2 := wetn2
  (dryn2, wetn2, refindx)

/-- Concrete single-level pressure profile (mb) for the refract run. -/
def pC3 : ℕ → ℚ := fun _ => 1000

/-- Concrete single-level temperature profile (K) for the refract run. -/
def tkC3 : ℕ → ℚ := fun _ => 300

/-- Concrete single-level vapor pressure profile (mb) for the refract run. -/
def eC3 : ℕ → ℚ := fun _ => 10

/-- Layer value chosen by exp_int_xxx once both endpoints are known to be
non-negative (rte.py lines 259-268): endpoints within 1e-9 give the upper
endpoint; a zero endpoint gives 0 or the arithmetic mean according to
zeroflg; otherwise the exponential-decay log-mean. -/
def expIntLayer (ops : Ops) (zeroflg : ℕ) (xm xi : ℚ) : ℚ :=
  if |xi - xm| < 1e-9 then xi
  else if xm = 0 ∨ xi = 0 then (if zeroflg = 0 then 0 else (xi + xm) * 0.5)
  else (xi - xm) / ops.log (xi / xm)

/-- The layer loop of exp_int_xxx (rte.py lines 253-271), by recursion on the
number of remaining layers; i is the current layer index, s the running sum,
w the per-layer integral array.  The boolean records whether the loop aborted
at a negative endpoint (the early return at line 257). -/
def expIntGo (ops : Ops) (zeroflg : ℕ) (x ds : ℕ → ℚ) :
    ℕ → ℕ → ℚ → (ℕ → ℚ) → ℚ × (ℕ → ℚ) × Bool
  | _, 0, s, w => (s, w, false)
  | i, n + 1, s, w =>
    if x (i - 1) < 0 ∨ x i < 0 then (s, w, true)
    else
      expIntGo ops zeroflg x ds (i + 1) n
        (s + expIntLayer ops zeroflg (x (i - 1)) (x i) * ds i)
        (Function.update w i (expIntLayer ops zeroflg (x (i - 1)) (x i) * ds i))

/-- RTEquation.exp_int_xxx (rte.py lines 231-275).  Integrates x over the
layers ibeg+1 .. iend; on the early return for a negative endpoint the
accumulated sum is returned as is, on normal completion it is multiplied by
factor (line 273).  Returns (sxds, xds) in source order. -/
def exp_int_xxx (ops : Ops) (zeroflg : ℕ) (x ds : ℕ → ℚ) (ibeg iend : ℕ)
    (factor : ℚ) : ℚ × (ℕ → ℚ) :=
  let r := expIntGo ops zeroflg x ds (ibeg + 1) (iend - ibeg) 0 (fun _ => 0)
  if r.2.2 then (r.1, r.2.1) else (r.1 * factor, r.2.1)

/-- The hvk scale of planck_xxx (rte.py lines 384-386). -/
def planck_hvk (ops : Ops) (frq : ℚ) : ℚ :=
  frq * 1000000000.0 * ops.planckC / ops.boltzmann

/-- Cumulative optical depth tauprof of planck_xxx (rte.py line 398):
tauprof[1] = 0 and tauprof[i] = tauprof[i-1] + taulay[i] for i ≥ 2. -/
def tauprofF (taulay : ℕ → ℚ) : ℕ → ℚ
  | 0 => 0
  | 1 => 0
  | i + 2 => tauprofF taulay (i + 1) + taulay (i + 2)

/-- Per-level modified Planck radiance boft of planck_xxx (lines 392-394). -/
def boftF (ops : Ops) (hvk : ℚ) (tk : ℕ → ℚ) (i : ℕ) : ℚ := ops.tk2b hvk (tk i)

/-- Cumulative atmospheric radiance boftatm of planck_xxx (lines 395-397). -/
def boftatmF (ops : Ops) (hvk : ℚ) (tk taulay : ℕ → ℚ) : ℕ → ℚ
  | 0 => 0
  | 1 => 0
  | i + 2 =>
    boftatmF ops hvk tk taulay (i + 1) +
      ((boftF ops hvk tk (i + 1) + boftF ops hvk tk (i + 2) * ops.exp (-taulay (i + 2))) /
          (1 + ops.exp (-taulay (i + 2)))) *
        ops.exp (-tauprofF taulay (i + 1)) * (1 - ops.exp (-taulay (i + 2)))

/-- Return record of planck_xxx, in source tuple order
(boftotl, boftatm, boftmr, tauprof, hvk, boft, bakgrnd). -/
structure PlanckRes where
  boftotl : ℚ
  boftatm : ℕ → ℚ
  boftmr : ℚ
  tauprof : ℕ → ℚ
  hvk : ℚ
  boft : ℕ → ℚ
  bakgrnd : ℚ

/-- RTEquation.planck_xxx (rte.py lines 350-413) with nl = len(tk) passed
explicitly.  Below the exponentiation ceiling 125 the cosmic background term
is attenuated and the mean-radiating radiance divides by 1 - exp(-tauprof[nl])
(lines 403-407); at or above the ceiling the background is zero and boftmr
equals boftatm[nl] (lines 408-411). -/
def planck_xxx (ops : Ops) (frq : ℚ) (tk taulay : ℕ → ℚ) (nl : ℕ) : PlanckRes :=
  let hvk := planck_hvk ops frq
  let tauprof := tauprofF taulay
  let boft := boftF ops hvk tk
  let boftatm := boftatmF ops hvk tk taulay
  if tauprof nl < 125 then
    let bakgrnd := ops.tk2b hvk ops.Tcosmicbkg * ops.exp (-tauprof nl)
    ⟨bakgrnd + boftatm nl, boftatm, boftatm nl / (1 - ops.exp (-tauprof nl)),
      tauprof, hvk, boft, bakgrnd⟩
  else
    ⟨boftatm nl, boftatm, boftatm nl, tauprof, hvk, boft, 0⟩

/-- The near-vertical test of ray_trac_xxx (rte.py line 172), kept with the
Python evaluation of the chained comparisons: each side reduces to comparing
angle against the truthiness of a numpy logical_and value. -/
def raySpecialCond (angle : ℚ) : Bool :=
  (decide (angle ≥ pyBool (npLogicalAnd 89 angle)) &&
      decide (pyBool (npLogicalAnd 89 angle) ≤ 91)) ||
    (decide (angle ≥ pyBool (npLogicalAnd (-91) angle)) &&
      decide (pyBool (npLogicalAnd (-91) angle) ≤ -89))

/-- The slant-path array as it stands before the first general-loop layer of
ray_trac_xxx: the special-case block (lines 172-175) fills height differences
when raySpecialCond holds, and ds[1] is set to 0 (lines 173, 185). -/
def dsInit (z : ℕ → ℚ) (angle : ℚ) (nl : ℕ) : ℕ → ℚ := fun i =>
  if raySpecialCond angle ∧ 2 ≤ i ∧ i ≤ nl then z i - z (i - 1) else 0

/-- The per-layer ray-tracing argument argth for the first general layer
i = 2 of ray_trac_xxx (rte.py lines 197-198). -/
def rayArgth (ops : Ops) (z refindx : ℕ → ℚ) (angle z0 : ℚ) : ℚ :=
  let theta0 := angle * (ops.pi / 180)
  let rs := ops.earthRadius + z 1 + z0
  let a0 := 2 * ops.sin (theta0 * 0.5) ^ 2
  let argdth := z 2 / rs - (refindx 1 - refindx 2) * ops.cos theta0 / refindx 2
  0.5 * (a0 + argdth) / (ops.earthRadius + z 2 + z0)

/-- RTEquation.ray_trac_xxx (rte.py lines 141-229).  The refractive-index
check (lines 166-169) returns None at the first index below 1.  The
special-case block does not return, so the general section always runs; the
source return statement at line 229 sits inside the layer loop, so the loop
body executes only for i = 2 before returning.  With fewer than two levels
the loop body never runs and the function falls off the end (None). -/
def ray_trac_xxx (ops : Ops) (z refindx : ℕ → ℚ) (angle z0 : ℚ) (nl : ℕ) :
    Option (ℕ → ℚ) :=
  if (List.range' 1 nl).any (fun i => decide (refindx i < 1)) then none
  else
    let ds0 := dsInit z angle nl
    let theta0 := angle * (ops.pi / 180)
    let rs := ops.earthRadius + z 1 + z0
    let costh0 := ops.cos theta0
    let sina := ops.sin (theta0 * 0.5)
    let a0 := 2 * sina ^ 2
    let rl := ops.earthRadius + z 1 + z0
    let tanthl := ops.tan theta0
    if 2 ≤ nl then
      let r := ops.earthRadius + z 2 + z0
      let refbar :=
        if refindx 2 = pyBool (npLogicalOr (refindx 1) (refindx 2)) ∧
            pyBool (npLogicalOr (refindx 1) (refindx 2)) =
              pyBool (npLogicalOr 1 (refindx 1)) ∧
            pyBool (npLogicalOr 1 (refindx 1)) = 1 then
          (refindx 2 + refindx 1) * 0.5
        else 1 + (refindx 1 - refindx 2) / ops.log ((refindx 1 - 1) / (refindx 2 - 1))
      let argdth := z 2 / rs - (refindx 1 - refindx 2) * costh0 / refindx 2
      let argth := rayArgth ops z refindx angle z0
      if argth ≤ 0 then some ds0
      else
        let sint := ops.sqrt (r * argth)
        let theta := 2 * ops.arcsin sint
        let dt :=
          if theta - 2 * theta0 ≤ 0 then
            4 * ops.arcsin ((0.5 * argdth - z 2 * argth) /
              (2 * (sint + sina) * ops.cos ((theta + theta0) * 0.25)))
          else theta - theta0
        let theta2 := if theta - 2 * theta0 ≤ 0 then theta0 + dt else theta
        let tanth := ops.tan theta2
        let cthbar := (1 / tanth + 1 / tanthl) * 0.5
        let dtau := cthbar * (refindx 1 - refindx 2) / refbar
        let tau := 0 + dtau
        let phi := dt + tau
        let dsBase := ops.sqrt ((z 2 - z 1) ^ 2 +
          4 * r * rl * ops.sin ((phi - 0) * 0.5) ^ 2)
        let ds2 := if dtau ≠ 0 then
            dsBase * (|tau - 0| / (2 * ops.sin (|tau - 0| * 0.5)))
          else dsBase
        some (Function.update ds0 2 ds2)
    else none

/-- Python exception outcomes that the absorption routines can produce:
nameError models the NameError raised when the line-summation variable summ
is read without having been assigned by any dispatch branch; valueError
models the descriptive ValueError raised by n2_absorption on an unknown
model name. -/
inductive PyExc where
  | nameError : PyExc
  | valueError : PyExc
  deriving DecidableEq

/-- Outcome of a Python call: a returned value or a raised exception. -/
inductive PyRes (α : Type) where
  | ok : α → PyRes α
  | exc : PyExc → PyRes α
  deriving DecidableEq

/-- True exactly when a call returned a present (non-None) value. -/
def isOkSome {α : Type} : PyRes (Option α) → Bool
  | PyRes.ok (some _) => true
  | _ => false

/-- First component of a returned pair, 0 on an exception; used only to state
concrete evaluations. -/
def nppOf : PyRes (ℚ × ℚ) → ℚ
  | PyRes.ok pr => pr.1
  | PyRes.exc _ => 0

/-- N2AbsModel.n2_absorption (absmodel.py lines 91-133): collision-induced
nitrogen absorption with model-dependent coefficients l, m, n; rose98 also
overrides the frequency dependence to 1; unknown models raise ValueError. -/
def n2_absorption (ops : Ops) (model : String) (t p f : ℚ) : PyRes ℚ :=
  let th := 300 / t
  let fdepen := 0.5 + 0.5 / (1 + (f / 450) ^ 2)
  if model ∈ ["rose16", "rose17", "rose18", "rose19", "rose19sd"] then
    PyRes.ok (1.34 * (6.5e-14 * fdepen * p * p * f * f * ops.rpow th 3.6))
  else if model ∈ ["rose20", "rose20sd"] then
    PyRes.ok (1 * (9.95e-14 * fdepen * p * p * f * f * ops.rpow th 3.22))
  else if model = "rose03" then
    PyRes.ok (1.29 * (6.5e-14 * fdepen * p * p * f * f * ops.rpow th 3.6))
  else if model ∈ ["rose98"] then
    PyRes.ok (1 * (6.4e-14 * 1 * p * p * f * f * ops.rpow th 3.55))
  else PyRes.exc PyExc.valueError

/-- One water-vapor line of the external h2oll coefficient table. -/
structure H2OLine where
  fl : ℚ
  s1 : ℚ
  b2 : ℚ
  w0 : ℚ
  x : ℚ
  w0s : ℚ
  xs : ℚ
  sh : ℚ
  xh : ℚ
  shs : ℚ
  xhs : ℚ
  aair : ℚ
  aself : ℚ
  w2 : ℚ
  w2s : ℚ
  sr : ℚ
  deriving DecidableEq

/-- The external h2oll line-shape table (supplied by import_lineshape,
outside the sources; consumed read-only). -/
structure H2OTable where
  lines : List H2OLine
  reftcon : ℚ
  cf : ℚ
  xcf : ℚ
  cs : ℚ
  xcs : ℚ
  reftline : ℚ
  d2air : ℚ
  d2self : ℚ
  deriving DecidableEq

/-- Vapor density rho computed by h2o_rosen19_sd from its inputs
(absmodel.py lines 210-214). -/
def h2o_rho (vx ekpa : ℚ) : ℚ :=
  ekpa * 10 / ((0.01 * 8.31451 / 18.01528) * (300 / vx))

/-- One line of the speed-dependent branch of h2o_rosen19_sd (absmodel.py
lines 245-288); i is the zero-based line index used by the rose20sd
delta2 special case. -/
def h2oLineSD (ops : Ops) (tbl : H2OTable) (model : String)
    (pda pvap tiL tiln ti2 f : ℚ) (i : ℕ) (L : H2OLine) : ℚ :=
  let width0 := L.w0 * pda * ops.rpow tiL L.x + L.w0s * pvap * ops.rpow tiL L.xs
  let width2 := L.w2 * pda + L.w2s * pvap
  let shift := L.sh * pda * (1 - L.aair * tiln) * ops.rpow tiL L.xh +
    L.shs * pvap * (1 - L.aself * tiln) * ops.rpow tiL L.xhs
  let wsq := width0 ^ 2
  let s := L.s1 * ti2 * ops.exp (L.b2 * (1 - tiL))
  let df0 := f - L.fl - shift
  let df1 := f + L.fl + shift
  let base := width0 / (562500 + wsq)
  let term := fun (j : ℕ) (dfj : ℚ) =>
    if width2 > 0 ∧ j = 0 ∧ |dfj| < 10 * width0 then
      let delta2 := if i = 1 then tbl.d2air * pda + tbl.d2self * pvap else 0
      let xc := if model = "rose20sd" then
          cdiv ⟨width0 - 1.5 * width2, dfj + 1.5 * delta2⟩ ⟨width2, -delta2⟩
        else cdiv ⟨width0 - 1.5 * width2, dfj⟩ ⟨width2, 0⟩
      let xrt := ops.csqrt xc
      let pxw := cmul (cmul ⟨1.77245385090551603, 0⟩ xrt)
        (ops.dcerror (-xrt.im) xrt.re)
      let sd := cdiv (cmul ⟨2, 0⟩ (csub ⟨1, 0⟩ pxw))
        (if model = "rose20sd" then ⟨width2, -delta2⟩ else ⟨width2, 0⟩)
      sd.re - base
    else if |dfj| < 750 then width0 / (dfj ^ 2 + wsq) - base
    else 0
  s * (term 0 df0 + term 1 df1) * (f / L.fl) ^ 2

/-- One line of the plain-Lorentz branch of h2o_rosen19_sd for the rose16,
rose03, rose17, rose98 models (absmodel.py lines 289-311); note the
detuning cutoff here is non-strict (<= 750). -/
def h2oLineLor (ops : Ops) (model : String) (pda pvap tiL ti2 f : ℚ)
    (L : H2OLine) : ℚ :=
  let widthf := L.w0 * pda * ops.rpow tiL L.x
  let widths := L.w0s * pvap * ops.rpow tiL L.xs
  let width := widthf + widths
  let shift := if model = "rose98" then 0
    else L.sr * (if model = "rose03" then width else widthf)
  let wsq := width ^ 2
  let s := L.s1 * ti2 * ops.exp (L.b2 * (1 - tiL))
  let df0 := f - L.fl - shift
  let df1 := f + L.fl + shift
  let base := width / (562500 + wsq)
  let term := fun (dfj : ℚ) =>
    if |dfj| ≤ 750 then width / (dfj ^ 2 + wsq) - base else 0
  s * (term df0 + term df1) * (f / L.fl) ^ 2

/-- One line of the rose19/rose20 branch of h2o_rosen19_sd (absmodel.py
lines 312-332): Lorentz shape with log-corrected air and self shifts. -/
def h2oLine19 (ops : Ops) (pda pvap tiL tiln ti2 f : ℚ) (L : H2OLine) : ℚ :=
  let width := L.w0 * pda * ops.rpow tiL L.x + L.w0s * pvap * ops.rpow tiL L.xs
  let shift := L.sh * pda * (1 - L.aair * tiln) * ops.rpow tiL L.xh +
    L.shs * pvap * (1 - L.aself * tiln) * ops.rpow tiL L.xhs
  let wsq := width ^ 2
  let s := L.s1 * ti2 * ops.exp (L.b2 * (1 - tiL))
  let df0 := f - L.fl - shift
  let df1 := f + L.fl + shift
  let base := width / (562500 + wsq)
  let term := fun (dfj : ℚ) =>
    if |dfj| < 750 then width / (dfj ^ 2 + wsq) - base else 0
  s * (term df0 + term df1) * (f / L.fl) ^ 2

/-- One line of the rose18 branch of h2o_rosen19_sd (absmodel.py lines
333-352): Lorentz shape with power-law air and self shifts. -/
def h2oLine18 (ops : Ops) (pda pvap tiL ti2 f : ℚ) (L : H2OLine) : ℚ :=
  let width := L.w0 * pda * ops.rpow tiL L.x + L.w0s * pvap * ops.rpow tiL L.xs
  let shift := L.sh * pda * ops.rpow tiL L.xh + L.shs * pvap * ops.rpow tiL L.xhs
  let wsq := width ^ 2
  let s := L.s1 * ti2 * ops.exp (L.b2 * (1 - tiL))
  let df0 := f - L.fl - shift
  let df1 := f + L.fl + shift
  let base := width / (562500 + wsq)
  let term := fun (dfj : ℚ) =>
    if |dfj| < 750 then width / (dfj ^ 2 + wsq) - base else 0
  s * (term df0 + term df1) * (f / L.fl) ^ 2

/-- Body of H2OAbsModel.h2o_rosen19_sd past the vapor-density guard
(absmodel.py lines 224-363).  The continuum term con is computed before the
model dispatch; a model matched by no dispatch branch leaves summ unassigned
and the final expression raises NameError (embedded as the exc result). -/
def h2o_body (ops : Ops) (tbl : H2OTable) (model : String)
    (pdrykpa vx ekpa frq : ℚ) : PyRes (Option (ℚ × ℚ)) :=
  let db2np := ops.log 10 * 0.1
  let factor := 0.182 * frq
  let t := 300 / vx
  let p := (pdrykpa + ekpa) * 10
  let rho := h2o_rho vx ekpa
  let f := frq
  (
    let pvap := if model ∈ ["rose03", "rose16", "rose17", "rose98"] then
        rho * t / 217.0
      else rho * t / 216.68
    let pda := p - pvap
    let den := if model ∈ ["rose03", "rose16", "rose98"] then 3.335e16 * rho
      else 3.344e16 * rho
    let ti := tbl.reftcon / t
    let con := if model ∈ ["rose03", "rose98"] then
        (5.43e-10 * pda * ti ^ 3 + 1.8e-8 * pvap * ops.rpow ti 7.5) * pvap * f * f
      else
        (tbl.cf * pda * ops.rpow ti tbl.xcf + tbl.cs * pvap * ops.rpow ti tbl.xcs) *
          pvap * f * f
    let tiL := tbl.reftline / t
    let summQ : Option ℚ :=
      if pyStartsWith model "rose19sd" || pyStartsWith model "rose20sd" then
        let tiln := ops.log tiL
        let ti2 := ops.exp (2.5 * tiln)
        some ((tbl.lines.enum.map
          (fun iL => h2oLineSD ops tbl model pda pvap tiL tiln ti2 f iL.1 iL.2)).sum)
      else if model ∈ ["rose16", "rose03", "rose17", "rose98"] then
        let ti2 := ops.rpow tiL 2.5
        some ((tbl.lines.map (h2oLineLor ops model pda pvap tiL ti2 f)).sum)
      else if model ∈ ["rose19", "rose20"] then
        let tiln := ops.log tiL
        let ti2 := ops.exp (2.5 * tiln)
        some ((tbl.lines.map (h2oLine19 ops pda pvap tiL tiln ti2 f)).sum)
      else if model = "rose18" then
        let ti2 := ops.rpow tiL 2.5
        some ((tbl.lines.map (h2oLine18 ops pda pvap tiL ti2 f)).sum)
      else none
    match summQ with
    | none => PyRes.exc PyExc.nameError
    | some summ =>
      PyRes.ok (some ((3.183e-5 * den * summ / db2np) / factor,
        (con / db2np) / factor)))

/-- H2OAbsModel.h2o_rosen19_sd, assembled: the rho.any() <= 0.0 guard of
line 218 in front of the dispatching body. -/
def h2o_rosen19_sd (ops : Ops) (tbl : H2OTable) (model : String)
    (pdrykpa vx ekpa frq : ℚ) : PyRes (Option (ℚ × ℚ)) :=
  if pyBoolLE (pyAny (h2o_rho vx ekpa)) 0 then PyRes.ok none
  else h2o_body ops tbl model pdrykpa vx ekpa frq

/-- One oxygen line of the external o2ll coefficient table (fields for all
table generations; each branch reads only its own generation). -/
structure O2Line where
  f : ℚ
  w300 : ℚ
  y300 : ℚ
  v : ℚ
  s300 : ℚ
  be : ℚ
  y0 : ℚ
  y1 : ℚ
  dnu0 : ℚ
  dnu1 : ℚ
  g0 : ℚ
  g1 : ℚ
  deriving DecidableEq

/-- The external o2ll line table (supplied by import_lineshape, outside the
sources; consumed read-only). -/
structure O2Table where
  lines : List O2Line
  wb300 : ℚ
  x : ℚ
  deriving DecidableEq

/-- Shared intermediate quantities of o2abs_rosen19 (absmodel.py lines
559-584), in source order; dens exists only for the rose03/rose98 models and
is 0 (unread) otherwise. -/
structure O2Env where
  temp : ℚ
  pres : ℚ
  vapden : ℚ
  freq : ℚ
  th : ℚ
  th1 : ℚ
  b : ℚ
  preswv : ℚ
  presda : ℚ
  den : ℚ
  dens : ℚ
  dfnr : ℚ
  pe2 : ℚ
  deriving DecidableEq

/-- Computes the shared intermediates of o2abs_rosen19 from its inputs
(absmodel.py lines 559-584). -/
def o2Env (ops : Ops) (tbl : O2Table) (model : String)
    (pdrykpa vx ekpa frq : ℚ) : O2Env :=
  let temp := 300 / vx
  let pres := (pdrykpa + ekpa) * 10
  let vapden := ekpa * 10 / ((0.01 * 8.31451 / 18.01528) * temp)
  let freq := frq
  let th := 300 / temp
  let th1 := th - 1
  let b := ops.rpow th tbl.x
  let preswv := if model ∈ ["rose03", "rose16", "rose17", "rose18", "rose98"] then
      vapden * temp / 217.0
    else vapden * temp / 216.68
  let presda := pres - preswv
  let den := if model ∈ ["rose03", "rose16", "rose98"] then
      0.001 * (presda * b + 1.1 * preswv * th)
    else 0.001 * (presda * b + 1.2 * preswv * th)
  let dens := if model = "rose03" then
      0.001 * (presda * ops.rpow th 0.9 + 1.1 * preswv * th)
    else if model = "rose98" then 0.001 * (presda + 1.1 * preswv) * th
    else 0
  ⟨temp, pres, vapden, freq, th, th1, b, preswv, presda, den, dens,
    tbl.wb300 * den, den * den⟩

/-- One line of the legacy rose03/rose98 oxygen loop (absmodel.py lines
592-602): the first tabulated line uses the dens broadening term. -/
def o2LineLegacy (ops : Ops) (env : O2Env) (k : ℕ) (L : O2Line) : ℚ :=
  let df := if k = 0 then L.w300 * env.dens else L.w300 * env.den
  let y := 0.001 * env.pres * env.b * (L.y300 + L.v * env.th1)
  let strr := L.s300 * ops.exp (-(L.be * env.th1))
  let sf1 := (df + (env.freq - L.f) * y) / ((env.freq - L.f) ^ 2 + df * df)
  let sf2 := (df - (env.freq + L.f) * y) / ((env.freq + L.f) ^ 2 + df * df)
  strr * (sf1 + sf2) * (env.freq / L.f) ^ 2

/-- One line of the rose17/rose18 oxygen loop (absmodel.py lines 603-611). -/
def o2LineMid (ops : Ops) (env : O2Env) (L : O2Line) : ℚ :=
  let df := L.w300 * env.den
  let y := env.den * (L.y300 + L.v * env.th1)
  let strr := L.s300 * ops.exp (-(L.be * env.th1))
  let sf1 := (df + (env.freq - L.f) * y) / ((env.freq - L.f) ^ 2 + df * df)
  let sf2 := (df - (env.freq + L.f) * y) / ((env.freq + L.f) ^ 2 + df * df)
  strr * (sf1 + sf2) * (env.freq / L.f) ^ 2

/-- One line of the newest-generation oxygen loop with second-order mixing,
used for every remaining model string (absmodel.py lines 612-625). -/
def o2LineNew (ops : Ops) (env : O2Env) (L : O2Line) : ℚ :=
  let df := L.w300 * env.den
  let y := env.den * (L.y0 + L.y1 * env.th1)
  let dnu := env.pe2 * (L.dnu0 + L.dnu1 * env.th1)
  let strr := L.s300 * ops.exp (-(L.be * env.th1))
  let del1 := env.freq - L.f - dnu
  let del2 := env.freq + L.f + dnu
  let gfac := 1 + env.pe2 * (L.g0 + L.g1 * env.th1)
  let sf1 := (df * gfac + del1 * y) / (del1 * del1 + df * df)
  let sf2 := (df * gfac - del2 * y) / (del2 * del2 + df * df)
  strr * (sf1 + sf2) * (env.freq / L.f) ^ 2

/-- The full line summation summ of o2abs_rosen19 (absmodel.py lines
586-625): the non-resonant seed is zeroed for the five legacy models, and
the loop branch is chosen by model family with the newest branch as the
catch-all else. -/
def o2_summ (ops : Ops) (tbl : O2Table) (model : String) (env : O2Env) : ℚ :=
  let summ0 := if model ∈ ["rose03", "rose16", "rose17", "rose18", "rose98"] then 0
    else 1.584e-17 * env.freq * env.freq * env.dfnr /
      (env.th * (env.freq * env.freq + env.dfnr * env.dfnr))
  let lineSum :=
    if model ∈ ["rose03", "rose98"] then
      ((tbl.lines.enum.map (fun kL => o2LineLegacy ops env kL.1 kL.2)).sum)
    else if model ∈ ["rose17", "rose18"] then
      ((tbl.lines.map (o2LineMid ops env)).sum)
    else ((tbl.lines.map (o2LineNew ops env)).sum)
  summ0 + lineSum

/-- Total resonant absorption before any clamping (absmodel.py lines
627-629), with the legacy-coefficient override for rose03/rose98. -/
def o2abs_raw (ops : Ops) (tbl : O2Table) (model : String)
    (pdrykpa vx ekpa frq : ℚ) : ℚ :=
  let env := o2Env ops tbl model pdrykpa vx ekpa frq
  let summ := o2_summ ops tbl model env
  if model ∈ ["rose03", "rose98"] then
    5.034e11 * summ * env.presda * env.th ^ 3 / 3.14159
  else 1.6097e11 * summ * env.presda * env.th ^ 3

/-- The clamping steps applied to the resonant total (absmodel.py lines
631-634): every model except rose98 is clamped at zero, and rose20/rose20sd
additionally scales the clamped value by 1.004. -/
def o2_clamped (model : String) (raw : ℚ) : ℚ :=
  let a := if model ≠ "rose98" then max raw 0 else raw
  if model ∈ ["rose20", "rose20sd"] then 1.004 * max a 0 else a

/-- The continuum term before unit conversion (absmodel.py lines 643-654). -/
def o2_ncpp0 (ops : Ops) (tbl : O2Table) (model : String)
    (pdrykpa vx ekpa frq : ℚ) : ℚ :=
  let env := o2Env ops tbl model pdrykpa vx ekpa frq
  if model ∈ ["rose03", "rose98"] then
    (1.6e-17 * env.freq * env.freq * env.dfnr /
        (env.th * (env.freq * env.freq + env.dfnr * env.dfnr))) *
      (5.034e11 * env.presda * env.th ^ 3 / 3.14159)
  else
    (1.584e-17 * env.freq * env.freq * env.dfnr /
        (env.th * (env.freq * env.freq + env.dfnr * env.dfnr))) *
      (1.6097e11 * env.presda * env.th ^ 3)

/-- The resonant output term npp of o2abs_rosen19: clamped total divided by
db2np and by the 0.182 frq conversion factor (absmodel.py line 658). -/
def o2_npp (ops : Ops) (tbl : O2Table) (model : String)
    (pdrykpa vx ekpa frq : ℚ) : ℚ :=
  (o2_clamped model (o2abs_raw ops tbl model pdrykpa vx ekpa frq) /
      (ops.log 10 * 0.1)) / (0.182 * frq)

/-- The continuum term of o2abs_rosen19 after the optional nitrogen
addition for the five legacy models (absmodel.py lines 655-656); the
nitrogen dispatch recognizes all five, but an exception there would
propagate. -/
def o2_ncppT (ops : Ops) (tbl : O2Table) (model : String)
    (pdrykpa vx ekpa frq : ℚ) : PyRes ℚ :=
  let env := o2Env ops tbl model pdrykpa vx ekpa frq
  let ncpp0 := o2_ncpp0 ops tbl model pdrykpa vx ekpa frq
  if model ∈ ["rose03", "rose16", "rose17", "rose18", "rose98"] then
    match n2_absorption ops model env.temp env.pres env.freq with
    | PyRes.ok v => PyRes.ok (ncpp0 + v)
    | PyRes.exc e => PyRes.exc e
  else PyRes.ok ncpp0

/-- O2AbsModel.o2abs_rosen19 (absmodel.py lines 504-662).  Every model
string reaches a loop branch (the newest one is the else catch-all), so the
routine never rejects a model name; the five legacy models add the nitrogen
continuum (line 656), whose own dispatch recognizes them all. -/
def o2abs_rosen19 (ops : Ops) (tbl : O2Table) (model : String)
    (pdrykpa vx ekpa frq : ℚ) : PyRes (ℚ × ℚ) :=
  match o2_ncppT ops tbl model pdrykpa vx ekpa frq with
  | PyRes.exc e => PyRes.exc e
  | PyRes.ok ncppT =>
    PyRes.ok (o2_npp ops tbl model pdrykpa vx ekpa frq,
      (ncppT / (ops.log 10 * 0.1)) / (0.182 * frq))

/-- RTEquation.bright_xxx (rte.py lines 76-91) over exact real arithmetic:
brightness temperature from modified Planck radiance. -/
noncomputable def bright_xxx (hvk boft : ℝ) : ℝ :=
  hvk / Real.log (1 + 1 / boft)

/-- Modelled from the spec: tk2b_mod, the forward modified-Planck radiance
used by planck_xxx and cld_tmr_xxx, lives in the utils module absent from
the sources.  The spec (glossary, section 4.5) defines it as the Planck
radiance with the frequency-cubed prefactor stripped, leaving only the
temperature-dependent exponential term: b(T) = 1 / (exp(hvk/T) - 1). -/
noncomputable def tk2b_mod (hvk tk : ℝ) : ℝ :=
  1 / (Real.exp (hvk / tk) - 1)

/-- Concrete one-line oxygen table used for concrete evaluations. -/
def o2tblW : O2Table :=
  ⟨[⟨1, 1, -10, 0, 1, 0, 0, 0, 0, 0, 0, 0⟩], 1, 1⟩

/-- Concrete one-line water-vapor table used for concrete evaluations. -/
def htblW : H2OTable :=
  ⟨[⟨22, 1, 0, 1, 0, 1, 0, 0, 0, 0, 0, 0, 0, 0, 0, 0⟩], 300, 1, 0, 1, 0, 300, 0, 0⟩

/-- Concrete profile with a negative first endpoint for the layer
integrator run. -/
def xC6 : ℕ → ℚ := fun i => if i = 1 then -1 else if i = 2 then 5 else
  if i = 3 then 5 else 0

/-- Concrete layer-depths for the layer integrator run. -/
def dsC6 : ℕ → ℚ := fun i => if i = 3 then 2 else 1

/-- Concrete profile whose last endpoint is negative, aborting at the second
layer of the integration range. -/
def xC7 : ℕ → ℚ := fun i => if i = 3 then -1 else 2

/-- Concrete layer-depths for the abort run. -/
def dsC7 : ℕ → ℚ := fun i => if i = 2 then 3 else 5

/-- Concrete non-negative profile (x j = j) for the normal-layer witness. -/
def xW6 : ℕ → ℚ := fun j => (j : ℚ)

/-- Unit layer-depth profile for the normal-layer witness. -/
def dsW6 : ℕ → ℚ := fun _ => 1

/-- Concrete height profile (km) 0, 1, 2 for the vertical ray-tracing run. -/
def zC4 : ℕ → ℚ := fun i => if i = 2 then 1 else if i = 3 then 2 else 0

/-- Refractive-index profile identically 1. -/
def rOne : ℕ → ℚ := fun _ => 1

/-- Flat zero height profile for the ducting witness. -/
def zC5 : ℕ → ℚ := fun _ => 0

/-- Refractive-index profile with an entry below 1 at level 2. -/
def refindxLow : ℕ → ℚ := fun i => if i = 2 then 1 / 2 else 1

/-- Constant 300 K temperature profile for the Planck run. -/
def tkC2 : ℕ → ℚ := fun _ => 300

/-- Constant layer optical depth 200 (saturated column) for the Planck run. -/
def tlC2 : ℕ → ℚ := fun _ => 200

/-- Constant layer optical depth 1/100 (thin column) for the Planck run. -/
def tlC2b : ℕ → ℚ := fun _ => 1 / 100

/-- Indices below the current loop position are never modified by the
remaining iterations of the exp_int layer loop. -/
theorem expIntGo_below (ops : Ops) (zf : ℕ) (x ds : ℕ → ℚ) :
    ∀ (n i : ℕ) (s : ℚ) (w : ℕ → ℚ) (t : ℕ), t < i →
      (expIntGo ops zf x ds i n s w).2.1 t = w t := by
  intro n
  induction n with
  | zero => intro i s w t ht; rfl
  | succ n ih =>
    intro i s w t ht
    rw [expIntGo]
    split
    · rfl
    · rw [ih (i + 1) _ _ t (by omega)]
      exact Function.update_noteq (by omega) _ w

/-- A layer inside the remaining range whose prefix (up to and including the
layer) has no negative endpoint receives exactly its layer value times its
layer depth. -/
theorem expIntGo_get (ops : Ops) (zf : ℕ) (x ds : ℕ → ℚ) :
    ∀ (n i : ℕ) (s : ℚ) (w : ℕ → ℚ) (t : ℕ), i ≤ t → t < i + n →
      (∀ j, i ≤ j → j ≤ t → ¬(x (j - 1) < 0 ∨ x j < 0)) →
      (expIntGo ops zf x ds i n s w).2.1 t
        = expIntLayer ops zf (x (t - 1)) (x t) * ds t := by
  intro n
  induction n with
  | zero => intro i s w t h1 h2 _; omega
  | succ n ih =>
    intro i s w t h1 h2 hok
    rw [expIntGo]
    rw [if_neg (hok i le_rfl h1)]
    by_cases hit : t = i
    · subst hit
      rw [expIntGo_below ops zf x ds n (t + 1) _ _ t (by omega)]
      rw [Function.update_same]
    · exact ih (i + 1) _ _ t (by omega) (by omega)
        (fun j hj1 hj2 => hok j (by omega) hj2)

/-- When the loop meets its first negative endpoint at layer a, it stops
there: the flag is set, the sum holds exactly the layers before a, and no
index from a on was written. -/
theorem expIntGo_abort (ops : Ops) (zf : ℕ) (x ds : ℕ → ℚ) :
    ∀ (n i : ℕ) (s : ℚ) (w : ℕ → ℚ) (a : ℕ), i ≤ a → a < i + n →
      (x (a - 1) < 0 ∨ x a < 0) →
      (∀ j, i ≤ j → j < a → ¬(x (j - 1) < 0 ∨ x j < 0)) →
      (expIntGo ops zf x ds i n s w).1
          = s + ∑ j ∈ Finset.Ico i a, expIntLayer ops zf (x (j - 1)) (x j) * ds j
        ∧ (expIntGo ops zf x ds i n s w).2.2 = true
        ∧ ∀ t, a ≤ t → (expIntGo ops zf x ds i n s w).2.1 t = w t := by
  intro n
  induction n with
  | zero => intro i s w a h1 h2; omega
  | succ n ih =>
    intro i s w a h1 h2 hneg hok
    by_cases hia : i = a
    · subst hia
      rw [expIntGo, if_pos hneg]
      exact ⟨by simp, rfl, fun t ht => rfl⟩
    · rw [expIntGo, if_neg (hok i le_rfl (by omega))]
      obtain ⟨e1, e2, e3⟩ := ih (i + 1) _ _ a (by omega) (by omega) hneg
        (fun j h1 h2 => hok j (by omega) h2)
      refine ⟨?_, e2, fun t ht => ?_⟩
      · rw [e1, Finset.sum_eq_sum_Ico_succ_bot (by omega : i < a)]
        ring
      · rw [e3 t ht, Function.update_noteq (by omega)]

/-- Claim C6 (amended): in exp_int_xxx, for a layer t of the integration
range [ibeg+1, iend] such that no profile value from ibeg up to t is
negative (so the loop has not aborted before reaching t), the per-layer
integral is the layer value chosen by the documented branches (endpoint
value when the endpoints differ by less than 1e-9, otherwise zero or the
arithmetic mean on an exactly-zero endpoint according to zeroflg, otherwise
the log-mean) multiplied by ds t. -/
theorem exp_int_layer_value (ops : Ops) (zf : ℕ) (x ds : ℕ → ℚ)
    (ibeg iend : ℕ) (factor : ℚ) (t : ℕ)
    (ht1 : ibeg + 1 ≤ t) (ht2 : t ≤ iend)
    (hok : ∀ j, ibeg ≤ j → j ≤ t → 0 ≤ x j) :
    (exp_int_xxx ops zf x ds ibeg iend factor).2 t
      = expIntLayer ops zf (x (t - 1)) (x t) * ds t := by
  have hget := expIntGo_get ops zf x ds (iend - ibeg) (ibeg + 1) 0 (fun _ => 0) t
    ht1 (by omega)
    (fun j hj1 hj2 => by
      rintro (h | h)
      · exact absurd h (not_lt.mpr (hok (j - 1) (by omega) (by omega)))
      · exact absurd h (not_lt.mpr (hok j (by omega) hj2)))
  simp only [exp_int_xxx]
  split <;> exact hget

unseal Rat.add Rat.mul Rat.inv Rat.sub Rat.ofScientific in
/-- Claim C6 (counterexample): with x = (-1, 5, 5) over range [2, 3], the
abort at layer 2 leaves layer 3 at zero, although both endpoints of layer 3
are non-negative and the claimed branch value times ds would be 10. -/
theorem exp_int_layer_after_abort :
    0 ≤ xC6 2 ∧ 0 ≤ xC6 3 ∧
      (exp_int_xxx opsZero 0 xC6 dsC6 1 3 1).2 3 = 0 ∧
      expIntLayer opsZero 0 (xC6 2) (xC6 3) * dsC6 3 = 10 ∧ (0 : ℚ) ≠ 10 := by
  refine ⟨by decide, by decide, ?_, by decide, by decide⟩
  decide

unseal Rat.add Rat.mul Rat.inv Rat.sub Rat.ofScientific in
/-- Claim C6 (witness): a concrete non-negative run through the log-mean
branch at layer 2. -/
theorem exp_int_layer_value_witness :
    (1 : ℕ) + 1 ≤ 2 ∧ (2 : ℕ) ≤ 2 ∧
      (exp_int_xxx opsZero 0 xW6 dsW6 1 2 1).2 2
        = expIntLayer opsZero 0 (xW6 1) (xW6 2) * dsW6 2 :=
  ⟨by norm_num, by norm_num,
    exp_int_layer_value opsZero 0 xW6 dsW6 1 2 1 2 (by norm_num) (by norm_num)
      (fun j _ _ => by simp [xW6])⟩

/-- Claim C7 (amended): when the first negative endpoint of the integration
range occurs at layer a, exp_int_xxx returns the partial sum of the layers
before a WITHOUT the unit-conversion factor applied (the factor is applied
only on normal completion), the per-layer array holds the documented values
below a, and layers from a on contribute nothing. -/
theorem exp_int_abort_result (ops : Ops) (zf : ℕ) (x ds : ℕ → ℚ)
    (ibeg iend : ℕ) (factor : ℚ) (a : ℕ)
    (ha1 : ibeg + 1 ≤ a) (ha2 : a ≤ iend)
    (hneg : x (a - 1) < 0 ∨ x a < 0)
    (hok : ∀ j, ibeg + 1 ≤ j → j < a → ¬(x (j - 1) < 0 ∨ x j < 0)) :
    (exp_int_xxx ops zf x ds ibeg iend factor).1
        = ∑ j ∈ Finset.Ico (ibeg + 1) a, expIntLayer ops zf (x (j - 1)) (x j) * ds j
      ∧ (∀ t, a ≤ t → (exp_int_xxx ops zf x ds ibeg iend factor).2 t = 0)
      ∧ (∀ t, ibeg + 1 ≤ t → t < a →
          (exp_int_xxx ops zf x ds ibeg iend factor).2 t
            = expIntLayer ops zf (x (t - 1)) (x t) * ds t) := by
  obtain ⟨e1, e2, e3⟩ := expIntGo_abort ops zf x ds (iend - ibeg) (ibeg + 1) 0
    (fun _ => 0) a ha1 (by omega) hneg hok
  refine ⟨?_, fun t ht => ?_, fun t ht1 ht2 => ?_⟩
  · simp only [exp_int_xxx, e2, if_true]
    rw [e1]
    ring
  · simp only [exp_int_xxx, e2, if_true]
    exact e3 t ht
  · have hget := expIntGo_get ops zf x ds (iend - ibeg) (ibeg + 1) 0 (fun _ => 0) t
      ht1 (by omega) (fun j hj1 hj2 => hok j hj1 (by omega))
    simp only [exp_int_xxx, e2, if_true]
    exact hget

unseal Rat.add Rat.mul Rat.inv Rat.sub Rat.ofScientific in
/-- Claim C7 (counterexample): with x = (2, 2, -1), ds2 = 3 and factor = 7
over range [2, 3], the abort at layer 3 returns the raw partial sum 6, not
the factor-scaled 42 the claim requires. -/
theorem exp_int_abort_unscaled :
    (exp_int_xxx opsZero 0 xC7 dsC7 1 3 7).1 = 6 ∧ ((6 : ℚ) ≠ 6 * 7) := by
  constructor
  · decide
  · decide

unseal Rat.add Rat.mul Rat.inv Rat.sub Rat.ofScientific in
/-- Claim C7 (witness): the abort theorem applied at the concrete run with
first negative endpoint at layer 3. -/
theorem exp_int_abort_result_witness :
    ((1 : ℕ) + 1 ≤ 3) ∧ (xC7 2 < 0 ∨ xC7 3 < 0) ∧
      (exp_int_xxx opsZero 0 xC7 dsC7 1 3 7).1
        = ∑ j ∈ Finset.Ico 2 3, expIntLayer opsZero 0 (xC7 (j - 1)) (xC7 j) * dsC7 j := by
  refine ⟨by norm_num, by decide, ?_⟩
  exact (exp_int_abort_result opsZero 0 xC7 dsC7 1 3 7 3 (by norm_num) (by norm_num)
    (by decide)
    (fun j h1 h2 => by
      have hj : j = 2 := by omega
      subst hj
      decide)).1

unseal Rat.add Rat.mul Rat.inv Rat.sub Rat.ofScientific in
/-- Claim C3 (code bug): at the concrete level p = 1000 mb, tk = 300 K,
e = 10 mb, the two refractivity arrays returned by refract_xxx are equal
(both hold the dry values, because lines 135-136 assign
wetn := asarray(dryn) and then dryn := asarray(wetn)), and consequently the
returned refindx does not satisfy refindx = 1 + (dryn + wetn) 1e-6 against
the returned arrays; it does satisfy it against the loop values. -/
theorem refract_swap_bug :
    ((refract_xxx pC3 tkC3 eC3).1 1 = (refract_xxx pC3 tkC3 eC3).2.1 1) ∧
      ((refract_xxx pC3 tkC3 eC3).2.2 1
        ≠ 1 + ((refract_xxx pC3 tkC3 eC3).1 1 + (refract_xxx pC3 tkC3 eC3).2.1 1) * 1e-6) ∧
      ((refract_xxx pC3 tkC3 eC3).2.2 1
        = 1 + (refr_dryn pC3 tkC3 eC3 1 + refr_wetn pC3 tkC3 eC3 1) * 1e-6) := by
  refine ⟨rfl, by decide, rfl⟩

/-- Claim C2 (confirmed): for any oracle, any temperature profile and any
non-negative per-layer optical depth profile, planck_xxx returns bakgrnd = 0
and boftmr = boftatm[nl] when the accumulated tauprof[nl] is at least 125,
and the attenuated cosmic-background and divided mean-radiating forms when
it is below 125. -/
theorem planck_saturation_branch (ops : Ops) (frq : ℚ) (tk taulay : ℕ → ℚ)
    (nl : ℕ) (hnn : ∀ i, 0 ≤ taulay i) :
    (125 ≤ tauprofF taulay nl →
        (planck_xxx ops frq tk taulay nl).bakgrnd = 0 ∧
        (planck_xxx ops frq tk taulay nl).boftmr
          = (planck_xxx ops frq tk taulay nl).boftatm nl)
    ∧ (tauprofF taulay nl < 125 →
        (planck_xxx ops frq tk taulay nl).bakgrnd
          = ops.tk2b (planck_hvk ops frq) ops.Tcosmicbkg *
              ops.exp (-tauprofF taulay nl) ∧
        (planck_xxx ops frq tk taulay nl).boftmr
          = (planck_xxx ops frq tk taulay nl).boftatm nl /
              (1 - ops.exp (-tauprofF taulay nl))) := by
  constructor
  · intro h
    have hc : ¬ tauprofF taulay nl < 125 := by linarith
    simp only [planck_xxx, hc, if_false]
    constructor <;> trivial
  · intro h
    simp only [planck_xxx, h, if_true]
    constructor <;> trivial

unseal Rat.add Rat.mul Rat.inv Rat.sub Rat.ofScientific in
/-- Claim C2 (witness): a saturated two-level column (taulay = 200) lands in
the fully-attenuated branch, and a thin column (taulay = 1/100) in the
divided branch. -/
theorem planck_saturation_branch_witness :
    (125 ≤ tauprofF tlC2 2 ∧
      (planck_xxx opsZero 22 tkC2 tlC2 2).bakgrnd = 0 ∧
      (planck_xxx opsZero 22 tkC2 tlC2 2).boftmr
        = (planck_xxx opsZero 22 tkC2 tlC2 2).boftatm 2) ∧
    (tauprofF tlC2b 2 < 125 ∧
      (planck_xxx opsZero 22 tkC2 tlC2b 2).bakgrnd
        = opsZero.tk2b (planck_hvk opsZero 22) opsZero.Tcosmicbkg *
            opsZero.exp (-tauprofF tlC2b 2) ∧
      (planck_xxx opsZero 22 tkC2 tlC2b 2).boftmr
        = (planck_xxx opsZero 22 tkC2 tlC2b 2).boftatm 2 /
            (1 - opsZero.exp (-tauprofF tlC2b 2))) :=
  ⟨⟨by decide,
    (planck_saturation_branch opsZero 22 tkC2 tlC2 2 (fun _ => by norm_num [tlC2])).1 (by decide)⟩,
   ⟨by decide,
    (planck_saturation_branch opsZero 22 tkC2 tlC2b 2 (fun _ => by norm_num [tlC2b])).2 (by decide)⟩⟩

unseal Rat.add Rat.mul Rat.inv Rat.sub Rat.ofScientific in
/-- Claim C4 (code bug, evaluated): at z = (0, 1, 2), refindx identically 1,
angle 90 and z0 = 0, ray_trac_xxx does not return the height-difference
profile: the general section runs after the special-case block (its comment
notwithstanding) and overwrites ds[2] with the curved-path value (0 under
the zero-valued oracle), although z[2] - z[1] = 1. -/
theorem ray_trac_vertical_overwrite :
    (ray_trac_xxx opsC4 zC4 rOne 90 0 3).map (fun d => d 2) = some 0 ∧
      zC4 2 - zC4 1 = 1 := by
  constructor
  · decide
  · decide

/-- Claim C5 (amended): for every oracle and every input, ray_trac_xxx
returns the no-result signal None whenever some refractive index in levels
1..nl is below 1 (not a partial profile), and on ducting (non-positive
ray-tracing argument at the first general layer) it returns the partial
slant-path profile built so far. -/
theorem ray_trac_failure_modes (ops : Ops) (z refindx : ℕ → ℚ)
    (angle z0 : ℚ) (nl : ℕ) :
    ((∃ i, 1 ≤ i ∧ i ≤ nl ∧ refindx i < 1) →
        ray_trac_xxx ops z refindx angle z0 nl = none)
    ∧ ((∀ i, 1 ≤ i → i ≤ nl → ¬ refindx i < 1) → 2 ≤ nl →
        rayArgth ops z refindx angle z0 ≤ 0 →
        ray_trac_xxx ops z refindx angle z0 nl = some (dsInit z angle nl)) := by
  constructor
  · rintro ⟨i, h1, h2, h3⟩
    have hany : (List.range' 1 nl).any (fun i => decide (refindx i < 1)) = true := by
      rw [List.any_eq_true]
      exact ⟨i, List.mem_range'_1.mpr ⟨h1, by omega⟩, by simpa using h3⟩
    simp only [ray_trac_xxx, hany, if_true]
  · intro hge h2 hduct
    have hany : (List.range' 1 nl).any (fun i => decide (refindx i < 1)) = false := by
      rw [List.any_eq_false]
      intro i hi
      have hb := List.mem_range'_1.mp hi
      simpa using hge i hb.1 (by omega)
    simp only [ray_trac_xxx, hany, Bool.false_eq_true, if_false, h2, if_true,
      hduct]

unseal Rat.add Rat.mul Rat.inv Rat.sub Rat.ofScientific in
/-- Claim C5 (counterexample): with a refractive index 1/2 at level 2, the
routine returns None, not the partial slant-path profile the claim
promises. -/
theorem ray_trac_low_refindx_returns_none :
    refindxLow 2 < 1 ∧ ray_trac_xxx opsZero zC5 refindxLow 45 0 2 = none := by
  constructor
  · decide
  · rfl

unseal Rat.add Rat.mul Rat.inv Rat.sub Rat.ofScientific in
/-- Claim C5 (witness): the amended theorem applied to a run with
refractive index below 1 (giving None) and a ducting run (giving the partial
profile). -/
theorem ray_trac_failure_modes_witness :
    (refindxLow 2 < 1 ∧ ray_trac_xxx opsZero zC4 refindxLow 45 0 2 = none) ∧
      (rayArgth opsZero zC5 rOne 45 0 ≤ 0 ∧
        ray_trac_xxx opsZero zC5 rOne 45 0 2 = some (dsInit zC5 45 2)) :=
  ⟨⟨by decide,
    (ray_trac_failure_modes opsZero zC4 refindxLow 45 0 2).1
      ⟨2, by norm_num, by norm_num, by decide⟩⟩,
   ⟨by decide,
    (ray_trac_failure_modes opsZero zC5 rOne 45 0 2).2
      (fun i _ _ => by simp [rOne]) (by norm_num) (by decide)⟩⟩

/-- Claim C10 (confirmed): over exact real arithmetic, bright_xxx inverts
the forward modified-Planck radiance: for hvk > 0 and radiance b > 0,
tk2b_mod hvk (bright_xxx hvk b) = b. -/
theorem bright_inverts_planck (hvk b : ℝ) (hh : 0 < hvk) (hb : 0 < b) :
    tk2b_mod hvk (bright_xxx hvk b) = b := by
  have hb0 : b ≠ 0 := ne_of_gt hb
  have h1 : (0 : ℝ) < 1 / b := by positivity
  have h2 : (1 : ℝ) < 1 + 1 / b := by linarith
  have hlog : 0 < Real.log (1 + 1 / b) := Real.log_pos h2
  have hlog0 : Real.log (1 + 1 / b) ≠ 0 := ne_of_gt hlog
  have hh0 : hvk ≠ 0 := ne_of_gt hh
  unfold tk2b_mod bright_xxx
  have key : hvk / (hvk / Real.log (1 + 1 / b)) = Real.log (1 + 1 / b) := by
    rw [div_div_eq_mul_div, mul_div_cancel_left₀ _ hh0]
  rw [key, Real.exp_log (by linarith : (0 : ℝ) < 1 + 1 / b)]
  rw [add_sub_cancel_left, one_div_one_div]

/-- Claim C10 (witness): the inversion theorem instantiated at
hvk = 1, b = 1. -/
theorem bright_inverts_planck_witness :
    (0 : ℝ) < 1 ∧ tk2b_mod 1 (bright_xxx 1 1) = 1 :=
  ⟨one_pos, bright_inverts_planck 1 1 one_pos one_pos⟩

unseal Rat.add Rat.mul Rat.inv Rat.sub Rat.ofScientific in
/-- The guard rho.any() <= 0.0 of h2o_rosen19_sd succeeds when rho is
exactly zero. -/
theorem pyGate_eq_true {q : ℚ} (h : q = 0) : pyBoolLE (pyAny q) 0 = true := by
  subst h
  decide

/-- The guard rho.any() <= 0.0 of h2o_rosen19_sd fails for every nonzero
rho, negative values included. -/
theorem pyGate_eq_false {q : ℚ} (h : q ≠ 0) : pyBoolLE (pyAny q) 0 = false := by
  simp [pyBoolLE, pyAny, pyBool, h]

/-- Claim C8 (amended): h2o_rosen19_sd returns the None no-op signal exactly
when the derived vapor density rho is zero (for any model string), and for
every recognized model string it returns the (npp, ncpp) pair whenever rho
is nonzero, negative vapor densities included. -/
theorem h2o_rho_gate (ops : Ops) (tbl : H2OTable) (model : String)
    (pdrykpa vx ekpa frq : ℚ) :
    (h2o_rho vx ekpa = 0 →
        h2o_rosen19_sd ops tbl model pdrykpa vx ekpa frq = PyRes.ok none)
    ∧ (h2o_rho vx ekpa ≠ 0 →
        model ∈ ["rose19sd", "rose20sd", "rose16", "rose03", "rose17",
          "rose98", "rose19", "rose20", "rose18"] →
        isOkSome (h2o_rosen19_sd ops tbl model pdrykpa vx ekpa frq) = true) := by
  constructor
  · intro h
    unfold h2o_rosen19_sd
    rw [pyGate_eq_true h]
    rfl
  · intro hrho hm
    have hg := pyGate_eq_false hrho
    unfold h2o_rosen19_sd
    rw [hg]
    fin_cases hm <;> rfl

unseal Rat.add Rat.mul Rat.inv Rat.sub Rat.ofScientific in
/-- Claim C8 (counterexample): with ekpa = -1 the derived vapor density is
negative, yet h2o_rosen19_sd does not take the no-op branch: it returns the
(npp, ncpp) pair. -/
theorem h2o_negative_rho_proceeds :
    h2o_rho 1 (-1) < 0 ∧
      isOkSome (h2o_rosen19_sd opsQ htblW "rose16" 8 1 (-1) 30) = true ∧
      h2o_rosen19_sd opsQ htblW "rose16" 8 1 (-1) 30 ≠ PyRes.ok none := by
  refine ⟨by decide, by decide, by decide⟩

unseal Rat.add Rat.mul Rat.inv Rat.sub Rat.ofScientific in
/-- Claim C8 (witness): the gate theorem applied at rho = 0 (None) and at a
positive rho with a recognized model (pair returned). -/
theorem h2o_rho_gate_witness :
    (h2o_rho 1 0 = 0 ∧
        h2o_rosen19_sd opsQ htblW "rose19" 8 1 0 30 = PyRes.ok none) ∧
      (h2o_rho 1 1 ≠ 0 ∧
        isOkSome (h2o_rosen19_sd opsQ htblW "rose19" 8 1 1 30) = true) :=
  ⟨⟨by decide, (h2o_rho_gate opsQ htblW "rose19" 8 1 0 30).1 (by decide)⟩,
   ⟨by decide, (h2o_rho_gate opsQ htblW "rose19" 8 1 1 30).2 (by decide) (by decide)⟩⟩

/-- For every model other than rose98 the clamping steps leave a
non-negative value. -/
theorem o2_clamped_nonneg (model : String) (raw : ℚ) (hm : model ≠ "rose98") :
    0 ≤ o2_clamped model raw := by
  simp only [o2_clamped]
  rw [if_pos hm]
  split
  · exact mul_nonneg (by norm_num) (le_max_right _ _)
  · exact le_max_right _ _

/-- The clamping steps are the identity for rose98. -/
theorem o2_clamped_rose98 (raw : ℚ) : o2_clamped "rose98" raw = raw := rfl

/-- Any pair returned by o2abs_rosen19 carries o2_npp in its first
component, whichever continuum path was taken. -/
theorem o2abs_npp_of_ok (ops : Ops) (tbl : O2Table) (model : String)
    (pdrykpa vx ekpa frq : ℚ) (pr : ℚ × ℚ)
    (h : o2abs_rosen19 ops tbl model pdrykpa vx ekpa frq = PyRes.ok pr) :
    pr.1 = o2_npp ops tbl model pdrykpa vx ekpa frq := by
  unfold o2abs_rosen19 at h
  rcases hn : o2_ncppT ops tbl model pdrykpa vx ekpa frq with v | e
  · rw [hn] at h
    injection h with hh
    rw [← hh]
  · rw [hn] at h
    exact absurd h (by simp)

/-- Claim C9 (confirmed): for every oracle, table and input, the resonant
term returned by o2abs_rosen19 is non-negative for every model except
rose98 whenever the unit-conversion divisors are positive (ln 10 > 0 and
frq > 0), and for rose98 it is exactly the unclamped total divided by the
conversion factors, so a negative line summation passes through. -/
theorem o2abs_clamp_behavior (ops : Ops) (tbl : O2Table)
    (pdrykpa vx ekpa frq : ℚ) :
    (∀ (model : String) (pr : ℚ × ℚ), model ≠ "rose98" → 0 < ops.log 10 →
        0 < frq →
        o2abs_rosen19 ops tbl model pdrykpa vx ekpa frq = PyRes.ok pr →
        0 ≤ pr.1)
    ∧ (∀ pr : ℚ × ℚ,
        o2abs_rosen19 ops tbl "rose98" pdrykpa vx ekpa frq = PyRes.ok pr →
        pr.1 = o2abs_raw ops tbl "rose98" pdrykpa vx ekpa frq /
          (ops.log 10 * 0.1) / (0.182 * frq)) := by
  constructor
  · intro model pr hm hlog hf h
    rw [o2abs_npp_of_ok ops tbl model pdrykpa vx ekpa frq pr h]
    unfold o2_npp
    have hcl := o2_clamped_nonneg model
      (o2abs_raw ops tbl model pdrykpa vx ekpa frq) hm
    have hdb : (0 : ℚ) < ops.log 10 * 0.1 := by
      have h01 : (0 : ℚ) < 0.1 := by norm_num
      exact mul_pos hlog h01
    have hfac : (0 : ℚ) < 0.182 * frq := by
      have h018 : (0 : ℚ) < 0.182 := by norm_num
      exact mul_pos h018 hf
    exact div_nonneg (div_nonneg hcl hdb.le) hfac.le
  · intro pr h
    rw [o2abs_npp_of_ok ops tbl "rose98" pdrykpa vx ekpa frq pr h]
    simp only [o2_npp, o2_clamped_rose98]

unseal Rat.add Rat.mul Rat.inv Rat.sub Rat.ofScientific in
/-- Claim C9 (witness): the clamp theorem applied at a concrete rose19 run
(non-negative npp) and a concrete rose98 run (pass-through), where the
rose98 line summation is negative and so is the returned npp. -/
theorem o2abs_clamp_behavior_witness :
    ("rose19" : String) ≠ "rose98" ∧ 0 < opsQ.log 10 ∧ (0 : ℚ) < 2 ∧
      0 ≤ nppOf (o2abs_rosen19 opsQ o2tblW "rose19" 100 1 0 2) ∧
      nppOf (o2abs_rosen19 opsQ o2tblW "rose98" 100 1 0 2)
        = o2abs_raw opsQ o2tblW "rose98" 100 1 0 2 /
            (opsQ.log 10 * 0.1) / (0.182 * 2) ∧
      nppOf (o2abs_rosen19 opsQ o2tblW "rose98" 100 1 0 2) < 0 := by
  refine ⟨by decide, by decide, by norm_num, ?_, ?_, by decide⟩
  · rcases hE : o2abs_rosen19 opsQ o2tblW "rose19" 100 1 0 2 with pr | e
    · exact (o2abs_clamp_behavior opsQ o2tblW 100 1 0 2).1 "rose19" pr
        (by decide) (by decide) (by norm_num) hE
    · cases e <;> exact absurd hE (by decide)
  · rcases hE : o2abs_rosen19 opsQ o2tblW "rose98" 100 1 0 2 with pr | e
    · exact (o2abs_clamp_behavior opsQ o2tblW 100 1 0 2).2 pr hE
    · cases e <;> exact absurd hE (by decide)

/-- Claim C1 (amended): an unrecognized model string is not rejected:
o2abs_rosen19 on the string not_a_model computes, for every oracle, table
and input, exactly what it computes for rose19 (the newest-generation
catch-all branch), and h2o_rosen19_sd on not_a_model (past the
vapor-density guard) raises the undefined-variable NameError instead of a
descriptive unknown-model error. -/
theorem unknown_model_behavior (ops : Ops) (otbl : O2Table) (htbl : H2OTable)
    (pdrykpa vx ekpa frq : ℚ) :
    o2abs_rosen19 ops otbl "not_a_model" pdrykpa vx ekpa frq
      = o2abs_rosen19 ops otbl "rose19" pdrykpa vx ekpa frq
    ∧ (h2o_rho vx ekpa ≠ 0 →
        h2o_rosen19_sd ops htbl "not_a_model" pdrykpa vx ekpa frq
          = PyRes.exc PyExc.nameError) := by
  constructor
  · rfl
  · intro hrho
    unfold h2o_rosen19_sd
    rw [pyGate_eq_false hrho]
    rfl

unseal Rat.add Rat.mul Rat.inv Rat.sub Rat.ofScientific in
/-- Claim C1 (counterexample): on the concrete unknown model string
not_a_model, o2abs_rosen19 returns normally with exactly the rose19-family
output (silent fallback, no error), and h2o_rosen19_sd ends in NameError
(an undefined-variable failure after the continuum work, not a descriptive
unknown-model rejection). -/
theorem o2_unknown_model_concrete_fallback :
    o2abs_rosen19 opsQ o2tblW "not_a_model" 100 1 1 2
      = o2abs_rosen19 opsQ o2tblW "rose19" 100 1 1 2
    ∧ h2o_rosen19_sd opsQ htblW "not_a_model" 8 1 1 30
        = PyRes.exc PyExc.nameError := by
  exact ⟨rfl, by decide⟩

unseal Rat.add Rat.mul Rat.inv Rat.sub Rat.ofScientific in
/-- Claim C1 (witness): the amended theorem applied at concrete inputs. -/
theorem unknown_model_behavior_witness :
    o2abs_rosen19 opsQ o2tblW "not_a_model" 100 1 0 2
      = o2abs_rosen19 opsQ o2tblW "rose19" 100 1 0 2
    ∧ h2o_rho 1 1 ≠ 0
    ∧ h2o_rosen19_sd opsQ htblW "not_a_model" 100 1 1 30
        = PyRes.exc PyExc.nameError :=
  ⟨(unknown_model_behavior opsQ o2tblW htblW 100 1 0 2).1, by decide,
   (unknown_model_behavior opsQ o2tblW htblW 100 1 1 30).2 (by decide)⟩
